import Mathlib

/-!
Shallow embedding of the NYC-Route-Finder quote-aggregation core
(`backend/app/services/{transit_service,uber_service,lyft_service,google_maps}.py`).

Python floats are modelled as exact rationals, `int(...)` truncation as
truncation toward zero, and the `"{...:.0f}"` / `"{...:.1f}"` float formats as
exact round-half-to-even decimal rounding.  Fallible operations (Python
exceptions that the services catch) are modelled with `Option`.
-/

/-- One run of the needle matching at the front of the haystack. -/
def charsLeadWith : List Char → List Char → Bool
  | [], _ => true
  | _ :: _, [] => false
  | a :: as, b :: bs => a == b && charsLeadWith as bs

/-- Whether the needle occurs somewhere in the haystack. -/
def charsContain (needle : List Char) : List Char → Bool
  | [] => charsLeadWith needle []
  | b :: bs => charsLeadWith needle (b :: bs) || charsContain needle bs

/-- Python `needle in hay` on strings: substring test. -/
def strContains (needle hay : String) : Bool :=
  charsContain needle.data hay.data

/-- Python `s.lower()` (character-wise; the names involved are ASCII). -/
def strLower (s : String) : String :=
  String.mk (s.data.map Char.toLower)

/-- Python `s.replace(a, b)` for a one-character pattern, which is how both
normalizers call it. -/
def strReplaceChar (s : String) (a b : Char) : String :=
  String.mk (s.data.map (fun c => if c == a then b else c))

/-- The fallback slug of both normalizers:
`name.lower().replace(" ", "_").replace("-", "_")`. -/
def pySanitize (name : String) : String :=
  strReplaceChar (strReplaceChar (strLower name) ' ' '_') '-' '_'

/-- First whitespace-separated token of a string, Python `s.split()[0]`
(`none` models the `IndexError` on a token-less string). -/
def firstTok (s : String) : Option String :=
  match s.data.dropWhile Char.isWhitespace with
  | [] => none
  | cs => some (String.mk (cs.takeWhile (fun c => !c.isWhitespace)))

/-- Value of a nonempty all-digit character list. -/
def parseDigits : List Char → Option Nat
  | [] => none
  | cs =>
    cs.foldl
      (fun acc c =>
        match acc with
        | none => none
        | some n => if c.isDigit then some (n * 10 + (c.toNat - 48)) else none)
      (some 0)

/-- Python `int(token)` on a bare token: optional sign then digits
(`none` models the `ValueError` on anything else). -/
def pyInt (s : String) : Option Int :=
  match s.data with
  | '-' :: rest => (parseDigits rest).map (fun n => -(n : Int))
  | '+' :: rest => (parseDigits rest).map (fun n => (n : Int))
  | cs => (parseDigits cs).map (fun n => (n : Int))

/-- Python `int(x)` on a number: truncation toward zero. -/
def pyTrunc (q : ℚ) : ℤ :=
  if q < 0 then -Int.floor (-q) else Int.floor q

/-- Round to the nearest integer, ties to the even neighbour (the rounding of
Python float formatting). -/
def roundHalfEven (q : ℚ) : ℤ :=
  let f := Int.floor q
  let r := q - (f : ℚ)
  if r < 1 / 2 then f
  else if 1 / 2 < r then f + 1
  else if f % 2 = 0 then f else f + 1

/-- Python `round(x, 1)`: one-decimal rounding, half to even. -/
def pyRound1 (q : ℚ) : ℚ :=
  (roundHalfEven (q * 10) : ℚ) / 10

/-- Python `f"{cents/100:.0f}"`: dollars rounded to a whole number. -/
def fmtDollars (cents : Int) : String :=
  toString (roundHalfEven ((cents : ℚ) / 100))

/-- The `f"${low/100:.0f}-${high/100:.0f}"` price-range rendering of
`google_maps.py`. -/
def fmtDollarRange (lo hi : Int) : String :=
  "$" ++ fmtDollars lo ++ "-$" ++ fmtDollars hi

/-- Python dict assignment `m[k] = v`: overwrite in place when the key exists,
append otherwise. -/
def dictInsert (m : List (String × α)) (k : String) (v : α) : List (String × α) :=
  if m.any (fun kv => kv.1 == k) then
    m.map (fun kv => if kv.1 == k then (k, v) else kv)
  else m ++ [(k, v)]

/-! ## Transit service (`transit_service.py`) -/

/-- The `transit` sub-dict a formatted step carries when its travel mode is
`TRANSIT` (`_extract_transit_steps`). -/
structure TransitDetail where
  line_name : String
  line_short_name : String
  vehicle_type : String
  departure_stop : String
  arrival_stop : String
  num_stops : Nat
  headsign : String
deriving DecidableEq

/-- A formatted step of `_extract_transit_steps`: lower-cased travel mode,
display distance and duration, and transit detail present only for transit
steps. -/
structure TransitStep where
  mode : String
  distance : String
  duration : String
  instructions : String
  transit : Option TransitDetail
deriving DecidableEq

def SUBWAY_FARE : ℚ := 2.90

def BUS_FARE : ℚ := 2.90

def EXPRESS_BUS_FARE : ℚ := 7.00

/-- The result dict of `_calculate_transit_pricing`. -/
structure TransitPricing where
  total_fare : ℚ
  fare_type : String
  currency : String
  note : String
deriving DecidableEq

/-- The per-step test inside `has_express_bus`: a transit step whose line is a
`BUS` vehicle with `"express"` in the lower-cased line name. -/
def isExpressBusStep (s : TransitStep) : Bool :=
  s.mode == "transit" &&
    (match s.transit with
     | some d => d.vehicle_type == "BUS" && strContains "express" (strLower d.line_name)
     | none => false)

/-- `TransitService._calculate_transit_pricing`. -/
def calculateTransitPricing (steps : List TransitStep) : TransitPricing :=
  let has_transit := steps.any (fun s => s.mode == "transit")
  let has_express_bus := steps.any isExpressBusStep
  if has_express_bus then
    ⟨EXPRESS_BUS_FARE, "Express Bus", "USD",
      "Single ride fare (includes free transfers within 2 hours)"⟩
  else if has_transit then
    ⟨SUBWAY_FARE, "Standard Fare", "USD",
      "Single ride fare (includes free transfers within 2 hours)"⟩
  else
    ⟨0, "Free (Walking Only)", "USD",
      "Single ride fare (includes free transfers within 2 hours)"⟩

/-- `TransitService._count_transfers`: `max(0, transit_steps - 1)`. -/
def countTransfers (steps : List TransitStep) : ℤ :=
  max 0 (((steps.filter (fun s => s.mode == "transit")).length : ℤ) - 1)

/-- Leading numeric token of a step distance text,
`int(step.get('distance', '0 m').split()[0])`. -/
def stepMeters (s : TransitStep) : Option Int :=
  (firstTok s.distance).bind pyInt

/-- The summed walking meters of `_calculate_walking_distance`; `none` models
the exception a non-numeric leading token raises. -/
def walkingMeters (steps : List TransitStep) : Option Int :=
  ((steps.filter (fun s => s.mode == "walking")).mapM stepMeters).map
    (fun l => l.foldl (fun a b => a + b) 0)

/-- The `f"{walking_meters / 1000:.1f} km"` rendering. -/
def fmtKm (m : ℤ) : String :=
  let t := roundHalfEven ((m : ℚ) / 100)
  toString (t / 10) ++ "." ++ toString ((t % 10).natAbs) ++ " km"

/-- `TransitService._calculate_walking_distance`. -/
def calculateWalkingDistance (steps : List TransitStep) : Option String :=
  (walkingMeters steps).map
    (fun m => if 1000 < m then fmtKm m else toString m ++ " m")

/-- `TransitService._extract_transit_lines`: short name falling back to full
name, first-seen order, de-duplicated. -/
def extractTransitLines (steps : List TransitStep) : List String :=
  steps.foldl
    (fun lines s =>
      if s.mode == "transit" then
        match s.transit with
        | some d =>
          let line := if d.line_short_name ≠ "" then d.line_short_name else d.line_name
          if line ≠ "" && line ∉ lines then lines ++ [line] else lines
        | none => lines
      else lines)
    []

/-- The fields of a processed route that `get_transit_summary` reads. -/
structure SummaryRoute where
  summary : String
  distance : String
  duration : String
  duration_minutes : ℤ
  pricing : TransitPricing
  transit_lines : List String
  transfers : ℤ
deriving DecidableEq

/-- The part of a `get_transit_directions` result that `get_transit_summary`
inspects. -/
structure TransitDirectionsResult where
  status : String
  routes : List SummaryRoute
deriving DecidableEq

/-- A JSON-ish field value of the summary record. -/
inductive SVal where
  | vb (b : Bool)
  | vi (n : ℤ)
  | vq (q : ℚ)
  | vs (s : String)
  | vls (l : List String)
  | vnone
deriving DecidableEq

/-- `TransitService.get_transit_summary`, as the keyed record it returns. -/
def getTransitSummary (td : TransitDirectionsResult) : List (String × SVal) :=
  match td.routes, td.status == "available" with
  | r :: _, true =>
    [("available", SVal.vb true),
     ("fare", SVal.vq r.pricing.total_fare),
     ("duration", SVal.vs r.duration),
     ("duration_minutes", SVal.vi r.duration_minutes),
     ("distance", SVal.vs r.distance),
     ("transit_lines", SVal.vls r.transit_lines),
     ("transfers", SVal.vi r.transfers),
     ("summary", SVal.vs r.summary)]
  | _, _ =>
    [("available", SVal.vb false),
     ("fare", SVal.vnone),
     ("duration", SVal.vnone),
     ("distance", SVal.vnone)]

/-- Whether the summary record carries a field of the given name. -/
def hasKey (m : List (String × SVal)) (k : String) : Bool :=
  m.any (fun kv => kv.1 == k)

/-! ## Uber service (`uber_service.py`) -/

/-- `UberService._normalize_product_name`. -/
def uberNormalizeProductName (display_name : String) : String :=
  let n := strLower display_name
  if strContains "uberx" n || strContains "uber x" n then "uberx"
  else if strContains "bike" n then "uber_bike"
  else if strContains "scooter" n then "uber_scooter"
  else if strContains "pool" n then "uber_pool"
  else if strContains "xl" n then "uber_xl"
  else if strContains "comfort" n then "uber_comfort"
  else if strContains "black" n then "uber_black"
  else pySanitize display_name

/-- One substring-match rule of a normalizer: a test on the lower-cased name
and the key it yields. -/
structure NormRule where
  test : String → Bool
  key : String

/-- First-match lookup through an ordered rule list, with a fallback key. -/
def firstMatch : List NormRule → String → String → String
  | [], _, fallback => fallback
  | r :: rs, n, fallback => if r.test n then r.key else firstMatch rs n fallback

/-- The Uber matching rules, in the precedence order of the source. -/
def uberRules : List NormRule :=
  [⟨fun n => strContains "uberx" n || strContains "uber x" n, "uberx"⟩,
   ⟨fun n => strContains "bike" n, "uber_bike"⟩,
   ⟨fun n => strContains "scooter" n, "uber_scooter"⟩,
   ⟨fun n => strContains "pool" n, "uber_pool"⟩,
   ⟨fun n => strContains "xl" n, "uber_xl"⟩,
   ⟨fun n => strContains "comfort" n, "uber_comfort"⟩,
   ⟨fun n => strContains "black" n, "uber_black"⟩]

/-- A normalized Uber product entry, the common shape of
`_process_price_estimates` values and of the mock products. -/
structure UberProduct where
  product_id : Option String
  display_name : String
  estimate : Option String
  low_estimate : Option Int
  high_estimate : Option Int
  duration : Option Int
  distance : Option ℚ
  surge_multiplier : ℚ
  status : String
deriving DecidableEq

/-- A raw line item of the live Uber price response (absent JSON fields are
`none`). -/
structure RawUberPrice where
  product_id : Option String
  display_name : String
  estimate : Option String
  low_estimate : Option Int
  high_estimate : Option Int
  duration : Option Int
  distance : Option ℚ
  surge_multiplier : Option ℚ
deriving DecidableEq

/-- `UberService._process_price_estimates`: the products map it builds (dict
insertion order, duplicate normalized keys overwritten). -/
def processPriceEstimates (prices : List RawUberPrice) : List (String × UberProduct) :=
  prices.foldl
    (fun m p =>
      dictInsert m (uberNormalizeProductName p.display_name)
        ⟨p.product_id, p.display_name, p.estimate, p.low_estimate, p.high_estimate,
          p.duration, p.distance, p.surge_multiplier.getD 1, "available"⟩)
    []

/-- The synthetic Uber base fare as a function of `approx_distance_miles`
(`sqrt(lat_diff^2 + lng_diff^2) * 69`, the one non-rational value of the
source, passed here as the parameter `d`). -/
def uberBaseFare (d : ℚ) : ℚ :=
  2.55 + d * 1.75 + max 8 (d * 3) * 0.35

/-- Low cents of the synthetic UberX quote: `int(base_fare * 100)`. -/
def uberMockLowCents (d : ℚ) : ℤ :=
  pyTrunc (uberBaseFare d * 100)

/-- High cents of the synthetic UberX quote: `int(base_fare * 1.3 * 100)`. -/
def uberMockHighCents (d : ℚ) : ℤ :=
  pyTrunc (uberBaseFare d * 1.3 * 100)

/-- The `uberx` product of `UberService._mock_price_estimates`. -/
def uberMockUberx (d : ℚ) : UberProduct :=
  { product_id := some "mock_uberx"
    display_name := "UberX"
    estimate := some ("$" ++ toString (roundHalfEven (uberBaseFare d)) ++ "-"
      ++ toString (roundHalfEven (uberBaseFare d * 1.3)))
    low_estimate := some (uberMockLowCents d)
    high_estimate := some (uberMockHighCents d)
    duration := some (pyTrunc (max 8 (d * 3) * 60))
    distance := some (pyRound1 d)
    surge_multiplier := 1
    status := "available" }

/-- The `uber_bike` product of `UberService._mock_price_estimates`. -/
def uberMockBike (d : ℚ) : UberProduct :=
  { product_id := some "mock_uber_bike"
    display_name := "Uber Bike"
    estimate := some "$3-6"
    low_estimate := some 300
    high_estimate := some 600
    duration := some (pyTrunc (d * 4 * 60))
    distance := some (pyRound1 d)
    surge_multiplier := 1
    status := if d < 3 then "available" else "unavailable" }

/-- The `uber_scooter` product of `UberService._mock_price_estimates`. -/
def uberMockScooter (d : ℚ) : UberProduct :=
  { product_id := some "mock_uber_scooter"
    display_name := "Uber Scooter"
    estimate := some "$4-8"
    low_estimate := some 400
    high_estimate := some 800
    duration := some (pyTrunc (d * 3 * 60))
    distance := some (pyRound1 d)
    surge_multiplier := 1
    status := if d < 2.5 then "available" else "unavailable" }

/-- The products map of `UberService._mock_price_estimates`. -/
def uberMockProducts (d : ℚ) : List (String × UberProduct) :=
  [("uberx", uberMockUberx d),
   ("uber_bike", uberMockBike d),
   ("uber_scooter", uberMockScooter d)]

/-- The top-level shape shared by `_process_price_estimates` results and
`_mock_price_estimates` results. -/
structure UberEstimatesResponse where
  service : String
  timestamp : String
  products : List (String × UberProduct)
deriving DecidableEq

/-- `UberService._mock_price_estimates` at distance `d`, stamped `now`. -/
def mockPriceEstimates (now : String) (d : ℚ) : UberEstimatesResponse :=
  ⟨"uber", now, uberMockProducts d⟩

/-! ## Lyft service (`lyft_service.py`) -/

/-- `LyftService._normalize_ride_type_name` (`""` stands for the falsy
`None`/empty ride type, which short-circuits to `"unknown"`). -/
def lyftNormalizeRideTypeName (ride_type : String) : String :=
  if ride_type == "" then "unknown"
  else
    let n := strLower ride_type
    if strContains "lyft" n && strContains "bike" n then "lyft_bike"
    else if strContains "lyft" n && strContains "scooter" n then "lyft_scooter"
    else if n == "lyft" || n == "standard" then "lyft_standard"
    else if strContains "shared" n || strContains "line" n then "lyft_shared"
    else if strContains "xl" n then "lyft_xl"
    else if strContains "lux" n then "lyft_lux"
    else pySanitize ride_type

/-- The Lyft matching rules, in the precedence order of the source. -/
def lyftRules : List NormRule :=
  [⟨fun n => strContains "lyft" n && strContains "bike" n, "lyft_bike"⟩,
   ⟨fun n => strContains "lyft" n && strContains "scooter" n, "lyft_scooter"⟩,
   ⟨fun n => n == "lyft" || n == "standard", "lyft_standard"⟩,
   ⟨fun n => strContains "shared" n || strContains "line" n, "lyft_shared"⟩,
   ⟨fun n => strContains "xl" n, "lyft_xl"⟩,
   ⟨fun n => strContains "lux" n, "lyft_lux"⟩]

/-- A normalized Lyft product entry, the common shape of
`_process_cost_estimates` values and of the mock products. -/
structure LyftProduct where
  ride_type : String
  display_name : String
  estimated_cost_cents_min : Option Int
  estimated_cost_cents_max : Option Int
  estimated_distance_miles : Option ℚ
  estimated_duration_seconds : Option Int
  is_valid_estimate : Bool
  primetime_percentage : String
  currency : String
  status : String
deriving DecidableEq

/-- A raw item of the live Lyft cost response. -/
structure RawLyftEstimate where
  ride_type : String
  display_name : Option String
  estimated_cost_cents_min : Option Int
  estimated_cost_cents_max : Option Int
  estimated_distance_miles : Option ℚ
  estimated_duration_seconds : Option Int
  is_valid_estimate : Option Bool
  primetime_percentage : Option String
  currency : Option String
deriving DecidableEq

/-- `LyftService._process_cost_estimates`: the products map it builds. -/
def processCostEstimates (estimates : List RawLyftEstimate) : List (String × LyftProduct) :=
  estimates.foldl
    (fun m e =>
      dictInsert m (lyftNormalizeRideTypeName e.ride_type)
        ⟨e.ride_type, e.display_name.getD e.ride_type,
          e.estimated_cost_cents_min, e.estimated_cost_cents_max,
          e.estimated_distance_miles, e.estimated_duration_seconds,
          e.is_valid_estimate.getD true, e.primetime_percentage.getD "0%",
          e.currency.getD "USD",
          if e.is_valid_estimate.getD true then "available" else "unavailable"⟩)
    []

/-- The synthetic Lyft base fare as a function of `approx_distance_miles`. -/
def lyftBaseFare (d : ℚ) : ℚ :=
  2.65 + d * 1.85 + max 8 (d * 3) * 0.38

/-- Low cents of the synthetic standard Lyft quote. -/
def lyftMockLowCents (d : ℚ) : ℤ :=
  pyTrunc (lyftBaseFare d * 100)

/-- High cents of the synthetic standard Lyft quote:
`int(base_fare * 1.35 * 100)`. -/
def lyftMockHighCents (d : ℚ) : ℤ :=
  pyTrunc (lyftBaseFare d * 1.35 * 100)

/-- The `lyft_standard` product of `LyftService._mock_cost_estimates`. -/
def lyftMockStandard (d : ℚ) : LyftProduct :=
  { ride_type := "lyft"
    display_name := "Lyft"
    estimated_cost_cents_min := some (lyftMockLowCents d)
    estimated_cost_cents_max := some (lyftMockHighCents d)
    estimated_distance_miles := some (pyRound1 d)
    estimated_duration_seconds := some (pyTrunc (max 8 (d * 3) * 60))
    is_valid_estimate := true
    primetime_percentage := "0%"
    currency := "USD"
    status := "available" }

/-- The `lyft_bike` product of `LyftService._mock_cost_estimates`. -/
def lyftMockBike (d : ℚ) : LyftProduct :=
  { ride_type := "lyft_bike"
    display_name := "Lyft Bike"
    estimated_cost_cents_min := some 350
    estimated_cost_cents_max := some 650
    estimated_distance_miles := some (pyRound1 d)
    estimated_duration_seconds := some (pyTrunc (d * 4 * 60))
    is_valid_estimate := true
    primetime_percentage := "0%"
    currency := "USD"
    status := if d < 3 then "available" else "unavailable" }

/-- The `lyft_scooter` product of `LyftService._mock_cost_estimates`. -/
def lyftMockScooter (d : ℚ) : LyftProduct :=
  { ride_type := "lyft_scooter"
    display_name := "Lyft Scooter"
    estimated_cost_cents_min := some 450
    estimated_cost_cents_max := some 850
    estimated_distance_miles := some (pyRound1 d)
    estimated_duration_seconds := some (pyTrunc (d * 3 * 60))
    is_valid_estimate := true
    primetime_percentage := "0%"
    currency := "USD"
    status := if d < 2.5 then "available" else "unavailable" }

/-- The products map of `LyftService._mock_cost_estimates`. -/
def lyftMockProducts (d : ℚ) : List (String × LyftProduct) :=
  [("lyft_standard", lyftMockStandard d),
   ("lyft_bike", lyftMockBike d),
   ("lyft_scooter", lyftMockScooter d)]

/-- The top-level shape of Lyft cost-estimate results. -/
structure LyftEstimatesResponse where
  service : String
  timestamp : String
  products : List (String × LyftProduct)
deriving DecidableEq

/-- `LyftService._mock_cost_estimates` at distance `d`, stamped `now`. -/
def mockCostEstimates (now : String) (d : ℚ) : LyftEstimatesResponse :=
  ⟨"lyft", now, lyftMockProducts d⟩


/-! ## Aggregation orchestrator (`google_maps.py`) -/

/-- A per-mode route of `_get_directions` (the `raw_data` passthrough is not
modelled; no claim reads it). -/
structure ModeRouteInfo where
  distance : String
  distance_meters : ℤ
  duration : String
  duration_minutes : ℤ
  start_address : String
  end_address : String
  steps : Nat
  mode : String
deriving DecidableEq

/-- A geocoding result of `geocode_address`. -/
structure Coords where
  address : String
  lat : ℚ
  lng : ℚ
  place_id : Option String
  types : List String
deriving DecidableEq

/-- A pricing entry of `_get_rideshare_pricing` / `_get_uber_pricing` /
`_get_lyft_pricing`; dict keys the branch does not set are `none`. -/
structure RideQuote where
  price : Option Int
  price_range : Option String
  duration : Option Int
  status : String
  service : Option String
  product_type : Option String
deriving DecidableEq

/-- The `{"price": None, "duration": None, "status": "unavailable"}` default
entry. -/
def unavailableQuote : RideQuote :=
  ⟨none, none, none, "unavailable", none, none⟩

/-- `GoogleMapsService._get_uber_pricing`, pure part: from the products map
and the driving duration to the uber pricing entry.  A `none` low or high
estimate in the `uberx` branch makes the range f-string divide `None` by 100,
whose `TypeError` the handler turns into the error entry. -/
def getUberPricing (products : List (String × UberProduct)) (driving_duration : Option Int) :
    RideQuote :=
  match products.lookup "uberx" with
  | some p =>
    match p.low_estimate, p.high_estimate with
    | some lo, some hi =>
      ⟨some lo, some (fmtDollarRange lo hi), driving_duration, p.status,
        some "uber", some "uberx"⟩
    | _, _ => ⟨none, none, driving_duration, "error", none, none⟩
  | none =>
    match products with
    | [] => ⟨none, none, driving_duration, "unavailable", none, none⟩
    | (k, p) :: _ =>
      ⟨p.low_estimate, p.estimate, driving_duration, p.status, some "uber", some k⟩

/-- `GoogleMapsService._get_lyft_pricing`, pure part.  Both branches render
the range f-string from the min and max cents, so a `none` in either makes
the handler return the error entry. -/
def getLyftPricing (products : List (String × LyftProduct)) (driving_duration : Option Int) :
    RideQuote :=
  match products.lookup "lyft_standard" with
  | some p =>
    match p.estimated_cost_cents_min, p.estimated_cost_cents_max with
    | some lo, some hi =>
      ⟨some lo, some (fmtDollarRange lo hi), driving_duration, p.status,
        some "lyft", some "lyft_standard"⟩
    | _, _ => ⟨none, none, driving_duration, "error", none, none⟩
  | none =>
    match products with
    | [] => ⟨none, none, driving_duration, "unavailable", none, none⟩
    | (k, p) :: _ =>
      match p.estimated_cost_cents_min, p.estimated_cost_cents_max with
      | some lo, some hi =>
        ⟨some lo, some (fmtDollarRange lo hi), driving_duration, p.status,
          some "lyft", some k⟩
      | _, _ => ⟨none, none, driving_duration, "error", none, none⟩

/-- The `routes_data` map: one optional entry per queried mode (a missing key
for a failed mode, never a null placeholder). -/
structure RoutesData where
  driving : Option ModeRouteInfo
  transit : Option ModeRouteInfo
  walking : Option ModeRouteInfo
  bicycling : Option ModeRouteInfo
deriving DecidableEq

/-- The `pricing` map of `_get_rideshare_pricing`. -/
structure PricingData where
  uber : RideQuote
  lyft : RideQuote
  mta : RideQuote
  citi_bike : RideQuote
deriving DecidableEq

/-- The deterministic upstream world a single aggregation runs against:
directions per mode, geocoding, the two provider estimate calls (already
resolved to their response, live-normalized or synthetic), and the clock. -/
structure Upstream where
  directions : String → String → String → Option ModeRouteInfo
  geocode : String → Option Coords
  uberEstimates : ℚ → ℚ → ℚ → ℚ → UberEstimatesResponse
  lyftEstimates : ℚ → ℚ → ℚ → ℚ → LyftEstimatesResponse
  now : String

/-- `GoogleMapsService._get_rideshare_pricing`: the static mta and citi_bike
entries, and the rideshare entries left `unavailable` unless both endpoints
geocoded. -/
def getRidesharePricing (up : Upstream) (origin_coords destination_coords : Option Coords)
    (rd : RoutesData) : PricingData :=
  let mta : RideQuote :=
    ⟨some 290, none, rd.transit.map (fun r => r.duration_minutes),
      if rd.transit.isSome then "available" else "unavailable", none, none⟩
  let citi : RideQuote :=
    ⟨none, none, rd.bicycling.map (fun r => r.duration_minutes),
      if rd.bicycling.isSome then "pending" else "unavailable", none, none⟩
  match origin_coords, destination_coords with
  | some oc, some dc =>
    let driving_duration := rd.driving.map (fun r => r.duration_minutes)
    { uber := getUberPricing (up.uberEstimates oc.lat oc.lng dc.lat dc.lng).products
        driving_duration
      lyft := getLyftPricing (up.lyftEstimates oc.lat oc.lng dc.lat dc.lng).products
        driving_duration
      mta := mta
      citi_bike := citi }
  | _, _ => { uber := unavailableQuote, lyft := unavailableQuote, mta := mta, citi_bike := citi }

/-- The top-level response of `get_multi_modal_routes`. -/
structure AggregatedQuote where
  origin : String
  destination : String
  routes : RoutesData
  pricing : PricingData
  timestamp : String
deriving DecidableEq

/-- `GoogleMapsService.get_multi_modal_routes` against an upstream world. -/
def getMultiModalRoutes (up : Upstream) (origin destination : String) : AggregatedQuote :=
  let rd : RoutesData :=
    ⟨up.directions origin destination "driving",
     up.directions origin destination "transit",
     up.directions origin destination "walking",
     up.directions origin destination "bicycling"⟩
  let origin_coords := up.geocode origin
  let destination_coords := up.geocode destination
  { origin := origin
    destination := destination
    routes := rd
    pricing := getRidesharePricing up origin_coords destination_coords rd
    timestamp := up.now }

/-! ## Specification-side predicates and concrete fixtures -/

/-- The express-bus condition as the spec words it: some transit step rides a
`BUS` vehicle on an express-flagged line. -/
def IsExpressBus (s : TransitStep) : Prop :=
  s.mode = "transit" ∧
    ∃ dtl, s.transit = some dtl ∧ dtl.vehicle_type = "BUS" ∧
      strContains "express" (strLower dtl.line_name) = true

/-- A 400 m walking step. -/
def sampleWalk400 : TransitStep :=
  ⟨"walking", "400 m", "5 mins", "Walk to Grand Central", none⟩

/-- A 200 m walking step. -/
def sampleWalk200 : TransitStep :=
  ⟨"walking", "200 m", "3 mins", "Walk to destination", none⟩

/-- A non-express subway transit step. -/
def sampleSubwayStep : TransitStep :=
  ⟨"transit", "5.1 km", "12 mins", "Subway towards Woodlawn",
    some ⟨"Lexington Avenue Local", "4", "SUBWAY", "Grand Central", "86 St", 5, "Woodlawn"⟩⟩

/-- The step list of the spec walking-distance scenario:
`[walking(400 m), transit(subway, non-express), walking(200 m)]`. -/
def sampleTransitSteps : List TransitStep :=
  [sampleWalk400, sampleSubwayStep, sampleWalk200]

/-- A driving-style mode route with the given duration in minutes. -/
def sampleRoute (mode : String) (mins : ℤ) : ModeRouteInfo :=
  ⟨"2.1 km", 2100, toString mins ++ " mins", mins, "Times Square", "Central Park", 4, mode⟩

/-- A resolved geocoding result for an address. -/
def sampleCoords (a : String) : Coords :=
  ⟨a, 40.7589, -73.9851, some "place", ["point_of_interest"]⟩

/-- An uberx product whose provider-reported duration (3540 s = 59 min) is
unrelated to the driving route duration. -/
def sampleUberX : UberProduct :=
  ⟨some "prod-x", "UberX", some "$10-13", some 1000, some 1300, some 3540, some (23 / 10), 1,
    "available"⟩

/-- A lyft_standard product whose provider-reported duration (3600 s) is
unrelated to the driving route duration. -/
def sampleLyftStandard : LyftProduct :=
  ⟨"lyft", "Lyft", some 1100, some 1400, some (23 / 10), some 3600, true, "0%", "USD",
    "available"⟩

/-- A deterministic mocked upstream: driving takes 12 minutes, transit 25,
geocoding always resolves, each provider returns one product, and responses
are stamped with the clock value `t`. -/
def scenarioUpstream (t : String) : Upstream :=
  { directions := fun _ _ m =>
      if m == "driving" then some (sampleRoute "driving" 12)
      else if m == "transit" then some (sampleRoute "transit" 25)
      else none
    geocode := fun a => some (sampleCoords a)
    uberEstimates := fun _ _ _ _ => ⟨"uber", t, [("uberx", sampleUberX)]⟩
    lyftEstimates := fun _ _ _ _ => ⟨"lyft", t, [("lyft_standard", sampleLyftStandard)]⟩
    now := t }

/-- The scenario upstream with geocoding failing on every address. -/
def noGeocodeUpstream (t : String) : Upstream :=
  { scenarioUpstream t with geocode := fun _ => none }

/-! ## Theorems -/

/-- The boolean per-step test of the source agrees with the spec-side
express-bus predicate. -/
theorem isExpressBusStep_iff (s : TransitStep) : isExpressBusStep s = true ↔ IsExpressBus s := by
  unfold isExpressBusStep IsExpressBus
  cases h : s.transit with
  | none => simp [h]
  | some dtl => simp [h, Bool.and_eq_true, beq_iff_eq]

/-- C2: fare precedence express > standard > free over any ordered step
list; a route mixing express and non-express transit legs is charged the
single flat express fare. -/
theorem transit_fare_precedence (steps : List TransitStep) :
    ((∃ s ∈ steps, IsExpressBus s) →
      (calculateTransitPricing steps).total_fare = EXPRESS_BUS_FARE ∧
      (calculateTransitPricing steps).fare_type = "Express Bus") ∧
    ((∀ s ∈ steps, ¬ IsExpressBus s) → (∃ s ∈ steps, s.mode = "transit") →
      (calculateTransitPricing steps).total_fare = SUBWAY_FARE ∧
      (calculateTransitPricing steps).fare_type = "Standard Fare") ∧
    ((∀ s ∈ steps, s.mode ≠ "transit") →
      (calculateTransitPricing steps).total_fare = 0 ∧
      (calculateTransitPricing steps).fare_type = "Free (Walking Only)") := by
  refine ⟨?_, ?_, ?_⟩
  · rintro ⟨s, hs, hex⟩
    have h : steps.any isExpressBusStep = true :=
      List.any_eq_true.mpr ⟨s, hs, (isExpressBusStep_iff s).mpr hex⟩
    simp [calculateTransitPricing, h]
  · intro hnone htr
    have h1 : steps.any isExpressBusStep = false := by
      rw [Bool.eq_false_iff]
      intro hc
      obtain ⟨s, hs, hx⟩ := List.any_eq_true.mp hc
      exact hnone s hs ((isExpressBusStep_iff s).mp hx)
    have h2 : steps.any (fun s => s.mode == "transit") = true := by
      obtain ⟨s, hs, hm⟩ := htr
      exact List.any_eq_true.mpr ⟨s, hs, beq_iff_eq.mpr hm⟩
    simp [calculateTransitPricing, h1, h2]
  · intro hnot
    have h1 : steps.any isExpressBusStep = false := by
      rw [Bool.eq_false_iff]
      intro hc
      obtain ⟨s, hs, hx⟩ := List.any_eq_true.mp hc
      exact hnot s hs ((isExpressBusStep_iff s).mp hx).1
    have h2 : steps.any (fun s => s.mode == "transit") = false := by
      rw [Bool.eq_false_iff]
      intro hc
      obtain ⟨s, hs, hm⟩ := List.any_eq_true.mp hc
      exact hnot s hs (beq_iff_eq.mp hm)
    simp [calculateTransitPricing, h1, h2]

/-- C7: walking distance sums the leading numeric token of each walking step
(meters), rendered as kilometers only above 1000 m; the spec scenario yields
"600 m", 0 transfers, standard fare; transfers are
`max(0, transit_steps - 1)`. -/
theorem walking_distance_and_transfers :
    (∀ (steps : List TransitStep) (m : ℤ), walkingMeters steps = some m →
      calculateWalkingDistance steps =
        some (if 1000 < m then fmtKm m else toString m ++ " m")) ∧
    walkingMeters sampleTransitSteps = some 600 ∧
    calculateWalkingDistance sampleTransitSteps = some "600 m" ∧
    countTransfers sampleTransitSteps = 0 ∧
    (calculateTransitPricing sampleTransitSteps).fare_type = "Standard Fare" ∧
    (∀ steps : List TransitStep,
      countTransfers steps =
        max 0 (((steps.filter (fun s => s.mode == "transit")).length : ℤ) - 1)) := by
  refine ⟨?_, by decide, by decide, by decide, by decide, fun steps => rfl⟩
  intro steps m h
  unfold calculateWalkingDistance
  rw [h]
  rfl

/-- C8 counterexample: on the reachable unavailable directions result the
summary record has no `transit_lines` and no `transfers` field, though the
claim requires both in the unavailable case too. -/
theorem transit_summary_unavailable_missing_fields :
    hasKey (getTransitSummary ⟨"unavailable", []⟩) "available" = true ∧
    hasKey (getTransitSummary ⟨"unavailable", []⟩) "fare" = true ∧
    hasKey (getTransitSummary ⟨"unavailable", []⟩) "duration" = true ∧
    hasKey (getTransitSummary ⟨"unavailable", []⟩) "transit_lines" = false ∧
    hasKey (getTransitSummary ⟨"unavailable", []⟩) "transfers" = false := by
  decide

/-- C8 amended: the summary always carries `available`, `fare`, `duration`
(and `distance`); it carries `transit_lines` and `transfers` exactly in the
available case with a nonempty route list, populated from the first route. -/
theorem transit_summary_fields_amended (td : TransitDirectionsResult) :
    hasKey (getTransitSummary td) "available" = true ∧
    hasKey (getTransitSummary td) "fare" = true ∧
    hasKey (getTransitSummary td) "duration" = true ∧
    hasKey (getTransitSummary td) "distance" = true ∧
    (hasKey (getTransitSummary td) "transit_lines" = true ↔
      td.status = "available" ∧ td.routes ≠ []) ∧
    (hasKey (getTransitSummary td) "transfers" = true ↔
      td.status = "available" ∧ td.routes ≠ []) ∧
    (∀ r rs, td.routes = r :: rs → td.status = "available" →
      (getTransitSummary td).lookup "fare" = some (SVal.vq r.pricing.total_fare) ∧
      (getTransitSummary td).lookup "transit_lines" = some (SVal.vls r.transit_lines) ∧
      (getTransitSummary td).lookup "transfers" = some (SVal.vi r.transfers)) := by
  obtain ⟨st, routes⟩ := td
  cases routes with
  | nil =>
    by_cases h : st = "available" <;>
      simp [getTransitSummary, hasKey, h]
  | cons r rs =>
    by_cases h : st = "available"
    · subst h
      simp [getTransitSummary, hasKey, List.lookup]
    · have hb : (st == "available") = false := beq_eq_false_iff_ne.mpr h
      simp [getTransitSummary, hasKey, hb, h]

/-- C3 counterexample: the very same product name resolves to the bike
category under Uber but the xl category under Lyft (Uber tests `bike` before
`xl`, Lyft the other way around unless `lyft` appears in the name), and a
plain `standard` name yields `standard` vs `lyft_standard`: the produced
keys are provider-specific, not one canonical cross-provider key set. -/
theorem product_key_cross_provider_mismatch :
    uberNormalizeProductName "XL Bike" = "uber_bike" ∧
    lyftNormalizeRideTypeName "XL Bike" = "lyft_xl" ∧
    uberNormalizeProductName "standard" = "standard" ∧
    lyftNormalizeRideTypeName "standard" = "lyft_standard" ∧
    uberNormalizeProductName "XL Bike" ≠ lyftNormalizeRideTypeName "XL Bike" := by
  decide

/-- C3 amended: each normalizer is a deterministic total function equal to a
first-match walk over its fixed, provider-specific rule table
(case-insensitive substring tests in the precedence order of the source)
with the sanitized slug as fallback; a name with both `xl` and `bike`
resolves by that per-provider precedence — but the two providers' keys and
precedence orders differ, so the keys are not canonical across providers. -/
theorem product_name_normalization_amended :
    (∀ s, uberNormalizeProductName s = firstMatch uberRules (strLower s) (pySanitize s)) ∧
    (∀ s, lyftNormalizeRideTypeName s =
      if s == "" then "unknown" else firstMatch lyftRules (strLower s) (pySanitize s)) ∧
    uberNormalizeProductName "XL Bike" = "uber_bike" ∧
    lyftNormalizeRideTypeName "Lyft XL Bike" = "lyft_bike" ∧
    uberNormalizeProductName "Some-Odd Product" = "some_odd_product" ∧
    lyftNormalizeRideTypeName "Some-Odd Product" = "some_odd_product" := by
  refine ⟨fun s => rfl, fun s => rfl, by decide, by decide, by decide, by decide⟩

/-- Membership after a dict insertion comes from the old map or is the
inserted pair. -/
theorem mem_dictInsert {α : Type} {m : List (String × α)} {k : String} {v : α}
    {e : String × α} (he : e ∈ dictInsert m k v) : e ∈ m ∨ e = (k, v) := by
  unfold dictInsert at he
  split at he
  · obtain ⟨kv, hkv, heq⟩ := List.mem_map.mp he
    by_cases h : (kv.1 == k) = true
    · right
      rw [if_pos h] at heq
      exact heq.symm
    · left
      rw [if_neg h] at heq
      exact heq ▸ hkv
  · rcases List.mem_append.mp he with h | h
    · exact Or.inl h
    · right
      simpa using h

/-- Every entry the live Uber normalizer emits has status `available`. -/
theorem processPriceEstimates_status (ps : List RawUberPrice) :
    ∀ e ∈ processPriceEstimates ps, e.2.status = "available" := by
  unfold processPriceEstimates
  suffices h : ∀ (acc : List (String × UberProduct)),
      (∀ e ∈ acc, e.2.status = "available") →
      ∀ e ∈ ps.foldl (fun m p =>
        dictInsert m (uberNormalizeProductName p.display_name)
          ⟨p.product_id, p.display_name, p.estimate, p.low_estimate, p.high_estimate,
            p.duration, p.distance, p.surge_multiplier.getD 1, "available"⟩) acc,
        e.2.status = "available" by
    exact h [] (by simp)
  induction ps with
  | nil =>
    intro acc hacc e he
    exact hacc e he
  | cons p ps ih =>
    intro acc hacc e he
    refine ih _ ?_ e he
    intro f hf
    rcases mem_dictInsert hf with h | h
    · exact hacc f h
    · rw [h]

/-- Every entry the live Lyft normalizer emits is `available` iff its
validity flag is set. -/
theorem processCostEstimates_status (es : List RawLyftEstimate) :
    ∀ e ∈ processCostEstimates es,
      (e.2.status = "available" ↔ e.2.is_valid_estimate = true) := by
  unfold processCostEstimates
  suffices h : ∀ (acc : List (String × LyftProduct)),
      (∀ e ∈ acc, (e.2.status = "available" ↔ e.2.is_valid_estimate = true)) →
      ∀ e ∈ es.foldl (fun m e =>
        dictInsert m (lyftNormalizeRideTypeName e.ride_type)
          ⟨e.ride_type, e.display_name.getD e.ride_type,
            e.estimated_cost_cents_min, e.estimated_cost_cents_max,
            e.estimated_distance_miles, e.estimated_duration_seconds,
            e.is_valid_estimate.getD true, e.primetime_percentage.getD "0%",
            e.currency.getD "USD",
            if e.is_valid_estimate.getD true then "available" else "unavailable"⟩) acc,
        (e.2.status = "available" ↔ e.2.is_valid_estimate = true) by
    exact h [] (by simp)
  induction es with
  | nil =>
    intro acc hacc e he
    exact hacc e he
  | cons p ps ih =>
    intro acc hacc e he
    refine ih _ ?_ e he
    intro f hf
    rcases mem_dictInsert hf with h | h
    · exact hacc f h
    · rw [h]
      by_cases hv : p.is_valid_estimate.getD true = true <;> simp [hv]

/-- C1 counterexample: at coordinates (0,0) to (1,0) the synthetic distance
is `sqrt(1) * 69 = 69` miles, so the mock Uber response carries an
`uber_bike` quote whose low price is present (300 cents) while its status is
`unavailable` — refuting "price present iff status available". -/
theorem mock_quote_price_with_unavailable_status :
    ("uber_bike", uberMockBike 69) ∈ (mockPriceEstimates "2024-01-01T00:00:00" 69).products ∧
    (uberMockBike 69).low_estimate = some 300 ∧
    (uberMockBike 69).status = "unavailable" := by
  refine ⟨?_, rfl, ?_⟩
  · simp only [mockPriceEstimates, uberMockProducts]
    exact List.mem_cons_of_mem _ (List.mem_cons_self _ _)
  · norm_num [uberMockBike]

/-- C1 amended: every synthetic quote of either provider always carries a
present low price; the primary products are always `available` while the
bike and scooter quotes are `available` exactly below their distance
thresholds (price kept regardless); live-normalized Uber quotes are always
`available` (even with an absent price) and live-normalized Lyft quotes are
`available` exactly when their validity flag is set. -/
theorem price_presence_and_status_amended :
    (∀ d : ℚ, ∀ e ∈ uberMockProducts d, e.2.low_estimate.isSome = true) ∧
    (∀ d : ℚ, ∀ e ∈ lyftMockProducts d, e.2.estimated_cost_cents_min.isSome = true) ∧
    (∀ d : ℚ, (uberMockUberx d).status = "available" ∧
      (lyftMockStandard d).status = "available") ∧
    (∀ d : ℚ, ((uberMockBike d).status = "available" ↔ d < 3) ∧
      ((uberMockScooter d).status = "available" ↔ d < 2.5) ∧
      ((lyftMockBike d).status = "available" ↔ d < 3) ∧
      ((lyftMockScooter d).status = "available" ↔ d < 2.5)) ∧
    (∀ ps : List RawUberPrice, ∀ e ∈ processPriceEstimates ps, e.2.status = "available") ∧
    (∀ es : List RawLyftEstimate, ∀ e ∈ processCostEstimates es,
      (e.2.status = "available" ↔ e.2.is_valid_estimate = true)) := by
  refine ⟨?_, ?_, fun d => ⟨rfl, rfl⟩, ?_, processPriceEstimates_status,
    processCostEstimates_status⟩
  · intro d e he
    simp only [uberMockProducts, List.mem_cons, List.not_mem_nil, or_false] at he
    rcases he with h | h | h <;> rw [h] <;> rfl
  · intro d e he
    simp only [lyftMockProducts, List.mem_cons, List.not_mem_nil, or_false] at he
    rcases he with h | h | h <;> rw [h] <;> rfl
  · intro d
    refine ⟨?_, ?_, ?_, ?_⟩ <;>
      [by_cases h : d < 3; by_cases h : d < 2.5; by_cases h : d < 3; by_cases h : d < 2.5] <;>
      simp [uberMockBike, uberMockScooter, lyftMockBike, lyftMockScooter, h]

/-- Python truncation is monotone on the nonnegative numbers. -/
theorem pyTrunc_mono {a b : ℚ} (ha : 0 ≤ a) (h : a ≤ b) : pyTrunc a ≤ pyTrunc b := by
  unfold pyTrunc
  rw [if_neg (not_lt.mpr ha), if_neg (not_lt.mpr (ha.trans h))]
  exact Int.floor_le_floor h

/-- The synthetic Uber base fare is monotone in the distance. -/
theorem uberBaseFare_mono {a b : ℚ} (h : a ≤ b) : uberBaseFare a ≤ uberBaseFare b := by
  unfold uberBaseFare
  have hm : max 8 (a * 3) ≤ max 8 (b * 3) :=
    max_le_max le_rfl (mul_le_mul_of_nonneg_right h (by norm_num))
  have h1 : a * 1.75 ≤ b * 1.75 := mul_le_mul_of_nonneg_right h (by norm_num)
  have h2 : max 8 (a * 3) * 0.35 ≤ max 8 (b * 3) * 0.35 :=
    mul_le_mul_of_nonneg_right hm (by norm_num)
  linarith

/-- The synthetic Uber base fare is nonnegative at nonnegative distances. -/
theorem uberBaseFare_nonneg {a : ℚ} (ha : 0 ≤ a) : 0 ≤ uberBaseFare a := by
  unfold uberBaseFare
  have h8 : (0 : ℚ) ≤ max 8 (a * 3) := le_trans (by norm_num) (le_max_left _ _)
  have h1 : (0 : ℚ) ≤ a * 1.75 := mul_nonneg ha (by norm_num)
  have h2 : (0 : ℚ) ≤ max 8 (a * 3) * 0.35 := mul_nonneg h8 (by norm_num)
  linarith

/-- The synthetic Lyft base fare is monotone in the distance. -/
theorem lyftBaseFare_mono {a b : ℚ} (h : a ≤ b) : lyftBaseFare a ≤ lyftBaseFare b := by
  unfold lyftBaseFare
  have hm : max 8 (a * 3) ≤ max 8 (b * 3) :=
    max_le_max le_rfl (mul_le_mul_of_nonneg_right h (by norm_num))
  have h1 : a * 1.85 ≤ b * 1.85 := mul_le_mul_of_nonneg_right h (by norm_num)
  have h2 : max 8 (a * 3) * 0.38 ≤ max 8 (b * 3) * 0.38 :=
    mul_le_mul_of_nonneg_right hm (by norm_num)
  linarith

/-- The synthetic Lyft base fare is nonnegative at nonnegative distances. -/
theorem lyftBaseFare_nonneg {a : ℚ} (ha : 0 ≤ a) : 0 ≤ lyftBaseFare a := by
  unfold lyftBaseFare
  have h8 : (0 : ℚ) ≤ max 8 (a * 3) := le_trans (by norm_num) (le_max_left _ _)
  have h1 : (0 : ℚ) ≤ a * 1.85 := mul_nonneg ha (by norm_num)
  have h2 : (0 : ℚ) ≤ max 8 (a * 3) * 0.38 := mul_nonneg h8 (by norm_num)
  linarith

/-- C6: both synthetic estimators are monotonically non-decreasing in the
trip distance, for the low and the high cent estimate.  The parameter is the
`approx_distance_miles` value `sqrt(lat_diff^2 + lng_diff^2) * 69`, a fixed
positive multiple of the Euclidean coordinate distance, so ordering two
endpoint pairs by Euclidean degree distance is exactly ordering them by this
parameter. -/
theorem mock_estimates_monotone_in_distance (d₁ d₂ : ℚ) (h0 : 0 ≤ d₁) (h : d₁ ≤ d₂) :
    uberMockLowCents d₁ ≤ uberMockLowCents d₂ ∧
    uberMockHighCents d₁ ≤ uberMockHighCents d₂ ∧
    lyftMockLowCents d₁ ≤ lyftMockLowCents d₂ ∧
    lyftMockHighCents d₁ ≤ lyftMockHighCents d₂ := by
  have hu := uberBaseFare_mono h
  have hun := uberBaseFare_nonneg h0
  have hl := lyftBaseFare_mono h
  have hln := lyftBaseFare_nonneg h0
  refine ⟨?_, ?_, ?_, ?_⟩
  · exact pyTrunc_mono (by positivity) (mul_le_mul_of_nonneg_right hu (by norm_num))
  · exact pyTrunc_mono (by positivity)
      (mul_le_mul_of_nonneg_right (mul_le_mul_of_nonneg_right hu (by norm_num)) (by norm_num))
  · exact pyTrunc_mono (by positivity) (mul_le_mul_of_nonneg_right hl (by norm_num))
  · exact pyTrunc_mono (by positivity)
      (mul_le_mul_of_nonneg_right (mul_le_mul_of_nonneg_right hl (by norm_num)) (by norm_num))

/-- C6 witness at distances 0 and 69 (the (0,0)-(1,0) endpoint pair). -/
theorem mock_estimates_monotone_in_distance_witness :
    (0 : ℚ) ≤ 0 ∧ (0 : ℚ) ≤ 69 ∧
    (uberMockLowCents 0 ≤ uberMockLowCents 69 ∧
     uberMockHighCents 0 ≤ uberMockHighCents 69 ∧
     lyftMockLowCents 0 ≤ lyftMockLowCents 69 ∧
     lyftMockHighCents 0 ≤ lyftMockHighCents 69) :=
  ⟨le_refl 0, by norm_num,
    mock_estimates_monotone_in_distance 0 69 (le_refl 0) (by norm_num)⟩

/-- Every branch of the Uber pricing extraction copies the driving
duration. -/
theorem getUberPricing_duration (products : List (String × UberProduct))
    (dd : Option Int) : (getUberPricing products dd).duration = dd := by
  unfold getUberPricing
  split
  · split <;> rfl
  · split <;> rfl

/-- Every branch of the Lyft pricing extraction copies the driving
duration. -/
theorem getLyftPricing_duration (products : List (String × LyftProduct))
    (dd : Option Int) : (getLyftPricing products dd).duration = dd := by
  unfold getLyftPricing
  split
  · split <;> rfl
  · split
    · rfl
    · split <;> rfl

/-- C4: with both endpoints geocoded, both rideshare entries report the
driving-mode route duration, never the provider-reported one. -/
theorem rideshare_duration_copied_from_driving (up : Upstream) (o d : String)
    (ho : (up.geocode o).isSome = true) (hd : (up.geocode d).isSome = true) :
    (getMultiModalRoutes up o d).pricing.uber.duration =
      (getMultiModalRoutes up o d).routes.driving.map (fun r => r.duration_minutes) ∧
    (getMultiModalRoutes up o d).pricing.lyft.duration =
      (getMultiModalRoutes up o d).routes.driving.map (fun r => r.duration_minutes) := by
  obtain ⟨oc, hoc⟩ := Option.isSome_iff_exists.mp ho
  obtain ⟨dc, hdc⟩ := Option.isSome_iff_exists.mp hd
  simp only [getMultiModalRoutes, getRidesharePricing, hoc, hdc]
  exact ⟨getUberPricing_duration _ _, getLyftPricing_duration _ _⟩

/-- C4 witness: the scenario upstream drives in 12 minutes while the
providers report 59 and 60 minutes; both rideshare entries still say 12. -/
theorem rideshare_duration_copied_from_driving_witness :
    (getMultiModalRoutes (scenarioUpstream "t0") "Times Square, New York, NY"
      "Central Park, New York, NY").pricing.uber.duration = some 12 ∧
    (getMultiModalRoutes (scenarioUpstream "t0") "Times Square, New York, NY"
      "Central Park, New York, NY").pricing.lyft.duration = some 12 := by
  have h := rideshare_duration_copied_from_driving (scenarioUpstream "t0")
    "Times Square, New York, NY" "Central Park, New York, NY" rfl rfl
  exact ⟨h.1.trans rfl, h.2.trans rfl⟩

/-- C5: a geocoding failure on either endpoint leaves both rideshare entries
at the unavailable default, keeps every successfully queried directions
result, and makes the whole response independent of the provider clients
(they are never consulted). -/
theorem geocode_failure_short_circuits_pricing (up : Upstream) (o d : String)
    (h : up.geocode o = none ∨ up.geocode d = none) :
    (getMultiModalRoutes up o d).pricing.uber = unavailableQuote ∧
    (getMultiModalRoutes up o d).pricing.lyft = unavailableQuote ∧
    (getMultiModalRoutes up o d).routes =
      ⟨up.directions o d "driving", up.directions o d "transit",
       up.directions o d "walking", up.directions o d "bicycling"⟩ ∧
    (∀ ue le, getMultiModalRoutes { up with uberEstimates := ue, lyftEstimates := le } o d =
      getMultiModalRoutes up o d) := by
  rcases h with h | h
  · rcases hd : up.geocode d with _ | dc <;>
      simp [getMultiModalRoutes, getRidesharePricing, h, hd]
  · rcases ho : up.geocode o with _ | oc <;>
      simp [getMultiModalRoutes, getRidesharePricing, h, ho]

/-- C5 witness: with geocoding failing everywhere, both rideshare entries
are the unavailable default. -/
theorem geocode_failure_short_circuits_pricing_witness :
    (getMultiModalRoutes (noGeocodeUpstream "t0") "Times Square, New York, NY"
      "Central Park, New York, NY").pricing.uber = unavailableQuote ∧
    (getMultiModalRoutes (noGeocodeUpstream "t0") "Times Square, New York, NY"
      "Central Park, New York, NY").pricing.lyft = unavailableQuote := by
  have h := geocode_failure_short_circuits_pricing (noGeocodeUpstream "t0")
    "Times Square, New York, NY" "Central Park, New York, NY" (Or.inl rfl)
  exact ⟨h.1, h.2.1⟩

/-- C9: against upstreams that agree on directions, geocoding and the
products of both providers (their inner timestamps and the clock may
differ), aggregation returns the same origin, destination, routes and
pricing — only the timestamp field may vary between two runs. -/
theorem aggregate_deterministic_except_timestamp (up₁ up₂ : Upstream) (o d : String)
    (hdir : up₁.directions = up₂.directions)
    (hgeo : up₁.geocode = up₂.geocode)
    (hu : ∀ a b c e, (up₁.uberEstimates a b c e).products = (up₂.uberEstimates a b c e).products)
    (hl : ∀ a b c e, (up₁.lyftEstimates a b c e).products = (up₂.lyftEstimates a b c e).products) :
    (getMultiModalRoutes up₁ o d).origin = (getMultiModalRoutes up₂ o d).origin ∧
    (getMultiModalRoutes up₁ o d).destination = (getMultiModalRoutes up₂ o d).destination ∧
    (getMultiModalRoutes up₁ o d).routes = (getMultiModalRoutes up₂ o d).routes ∧
    (getMultiModalRoutes up₁ o d).pricing = (getMultiModalRoutes up₂ o d).pricing := by
  obtain ⟨dir₁, geo₁, ue₁, le₁, n₁⟩ := up₁
  obtain ⟨dir₂, geo₂, ue₂, le₂, n₂⟩ := up₂
  dsimp at hdir hgeo hu hl
  subst hdir hgeo
  refine ⟨rfl, rfl, rfl, ?_⟩
  simp only [getMultiModalRoutes, getRidesharePricing]
  rcases ho : geo₁ o with _ | oc <;> rcases hd : geo₁ d with _ | dc <;> simp only [ho, hd]
  rw [hu oc.lat oc.lng dc.lat dc.lng, hl oc.lat oc.lng dc.lat dc.lng]

/-- C9 witness: two runs against the scenario upstream at different clock
readings agree on routes and pricing while the timestamps differ. -/
theorem aggregate_deterministic_except_timestamp_witness :
    (getMultiModalRoutes (scenarioUpstream "2024-01-01T10:00:00") "A" "B").routes =
      (getMultiModalRoutes (scenarioUpstream "2024-01-01T11:00:00") "A" "B").routes ∧
    (getMultiModalRoutes (scenarioUpstream "2024-01-01T10:00:00") "A" "B").pricing =
      (getMultiModalRoutes (scenarioUpstream "2024-01-01T11:00:00") "A" "B").pricing ∧
    (getMultiModalRoutes (scenarioUpstream "2024-01-01T10:00:00") "A" "B").timestamp ≠
      (getMultiModalRoutes (scenarioUpstream "2024-01-01T11:00:00") "A" "B").timestamp := by
  have h := aggregate_deterministic_except_timestamp
    (scenarioUpstream "2024-01-01T10:00:00") (scenarioUpstream "2024-01-01T11:00:00")
    "A" "B" rfl rfl (fun _ _ _ _ => rfl) (fun _ _ _ _ => rfl)
  exact ⟨h.2.2.1, h.2.2.2, by decide⟩

/-- C10: the pricing map always carries a transit.mta entry priced at the
constant 290 cents, available exactly when a transit route was obtained, and
with that route's duration — whatever geocoding and the providers did. -/
theorem mta_transit_entry_invariant (up : Upstream) (o d : String) :
    (getMultiModalRoutes up o d).pricing.mta.price = some 290 ∧
    ((getMultiModalRoutes up o d).pricing.mta.status = "available" ↔
      (getMultiModalRoutes up o d).routes.transit.isSome = true) ∧
    (getMultiModalRoutes up o d).pricing.mta.duration =
      (getMultiModalRoutes up o d).routes.transit.map (fun r => r.duration_minutes) := by
  have hmta : (getMultiModalRoutes up o d).pricing.mta =
      ⟨some 290, none, (up.directions o d "transit").map (fun r => r.duration_minutes),
        if (up.directions o d "transit").isSome then "available" else "unavailable",
        none, none⟩ := by
    simp only [getMultiModalRoutes, getRidesharePricing]
    rcases ho : up.geocode o with _ | oc <;> rcases hd : up.geocode d with _ | dc <;> rfl
  refine ⟨by rw [hmta], ?_, by rw [hmta]; rfl⟩
  rw [hmta]
  show (if (up.directions o d "transit").isSome then "available" else "unavailable")
      = "available" ↔ (up.directions o d "transit").isSome = true
  rcases ht : up.directions o d "transit" with _ | r <;> simp
